import Mathlib

/-!
Verification development for the `ion` UI component library.

Embedded here, from the repository's sources:
* the popover anchor-position calculator `getPositionsPopover`;
* the steps component's `changeStep` transition;
* the sidebar selection / disclosure state machine.  The sidebar
  component's implementation file is not part of the available sources
  (only its tests and type declarations are), so its operations are
  modelled from the specification document, as marked on each definition.

Numbers flowing through the popover calculator are JavaScript numbers;
they are embedded as rationals, with `Math.round` embedded as
`⌊q + 1/2⌋` (JavaScript rounds halves toward positive infinity).
-/

/-- Embedding of JavaScript `Math.round`: nearest integer, halves toward +∞. -/
def Math.round (q : ℚ) : ℤ := ⌊q + 1/2⌋

/-- The trigger element's bounding box (`Hostpositions` in the source). -/
structure Hostpositions where
  left : ℚ
  right : ℚ
  top : ℚ
  bottom : ℚ
deriving DecidableEq

/-- An anchor point: the `{ left, top }` pair the calculator emits per placement. -/
structure AnchorPoint where
  left : ℤ
  top : ℤ
deriving DecidableEq

/-- The ten named placements (`PopoverPositions` in the source). -/
structure PopoverPositions where
  topLeft : AnchorPoint
  topCenter : AnchorPoint
  topRight : AnchorPoint
  bottomLeft : AnchorPoint
  bottomCenter : AnchorPoint
  bottomRight : AnchorPoint
  leftTop : AnchorPoint
  rightTop : AnchorPoint
  leftBottom : AnchorPoint
  rightBottom : AnchorPoint
deriving DecidableEq

/-- Embedding of `getPositionsPopover` from the source file
(popover position utility): for each placement, the anchor point computed
from the box and the `arrowAtCenter` flag. -/
def getPositionsPopover : Hostpositions → Bool → PopoverPositions
  | ⟨left, right, top, bottom⟩, arrowAtCenter =>
    let horizontalCenter := Math.round ((right - left) / 2 + left)
    let verticalCenter := Math.round ((bottom - top) / 2 + top)
    { topLeft := ⟨if arrowAtCenter then horizontalCenter else Math.round right,
                  Math.round top⟩
      topCenter := ⟨horizontalCenter, Math.round top⟩
      topRight := ⟨if arrowAtCenter then horizontalCenter else Math.round left,
                   Math.round top⟩
      bottomLeft := ⟨if arrowAtCenter then horizontalCenter else Math.round right,
                     Math.round bottom⟩
      bottomCenter := ⟨horizontalCenter, Math.round bottom⟩
      bottomRight := ⟨if arrowAtCenter then horizontalCenter else Math.round left,
                      Math.round bottom⟩
      leftTop := ⟨Math.round left, Math.round (top + (bottom - top) / 2)⟩
      rightTop := ⟨Math.round right, Math.round (top + (bottom - top) / 2)⟩
      leftBottom := ⟨Math.round left,
                     if arrowAtCenter then Math.round bottom
                     else Math.round (bottom - top + bottom)⟩
      rightBottom := ⟨Math.round right,
                      if arrowAtCenter then verticalCenter
                      else Math.round (bottom - top + bottom)⟩ }

/-- The placement table of the specification (its §6), transcribed from the
spec's words, to be compared with `getPositionsPopover`: `hC` and `vC` are
the rounded horizontal / vertical centers, every value is rounded to the
nearest integer, and each row of the table gives one placement. -/
def specPlacementTable (box : Hostpositions) (arrowAtCenter : Bool) :
    PopoverPositions :=
  let hC := Math.round ((box.right - box.left) / 2 + box.left)
  let vC := Math.round ((box.bottom - box.top) / 2 + box.top)
  { topLeft := ⟨if arrowAtCenter then hC else Math.round box.right,
                Math.round box.top⟩
    topCenter := ⟨hC, Math.round box.top⟩
    topRight := ⟨if arrowAtCenter then hC else Math.round box.left,
                 Math.round box.top⟩
    bottomLeft := ⟨if arrowAtCenter then hC else Math.round box.right,
                   Math.round box.bottom⟩
    bottomCenter := ⟨hC, Math.round box.bottom⟩
    bottomRight := ⟨if arrowAtCenter then hC else Math.round box.left,
                    Math.round box.bottom⟩
    leftTop := ⟨Math.round box.left,
                Math.round (box.top + (box.bottom - box.top) / 2)⟩
    rightTop := ⟨Math.round box.right,
                 Math.round (box.top + (box.bottom - box.top) / 2)⟩
    leftBottom := ⟨Math.round box.left,
                   if arrowAtCenter then Math.round box.bottom
                   else Math.round (box.bottom - box.top + box.bottom)⟩
    rightBottom := ⟨Math.round box.right,
                    if arrowAtCenter then vC
                    else Math.round (box.bottom - box.top + box.bottom)⟩ }

/-! ## Sidebar selection / disclosure state machine

The sidebar component's implementation file is not among the available
sources — only its tests and an (older) `IonSidebarProps` type declaration
are.  The state machine below is therefore modelled from the specification
document (its §3, §4.1, §4.2 and §6), as marked on each definition.
-/

/-- A leaf `Item` of the sidebar, after the repository's `Item` type:
`{ title, icon, selected?, disabled?, action? }`; the presence of the
zero-argument `action` callback is modelled as an `Option Unit`. -/
structure ItemDef where
  title : String
  icon : String
  selected : Option Bool := Option.none
  disabled : Option Bool := Option.none
  action : Option Unit := Option.none
deriving DecidableEq

/-- One entry of the construction-time `items` sequence: either a leaf
`Item` or a `Group` (an `Item` carrying an ordered list of child items). -/
inductive SidebarEntry where
  | item (it : ItemDef)
  | group (it : ItemDef) (options : List ItemDef)
deriving DecidableEq

/-- Modelled from the spec: the selected entity, realising §3's
`selectedPath: optional (groupIndex: optional int, itemIndex: int)` plus the
group-as-selected-entity case of `selectGroup`. -/
inductive Selection where
  | none
  | topItem (itemIndex : ℕ)
  | groupChild (groupIndex itemIndex : ℕ)
  | group (groupIndex : ℕ)
deriving DecidableEq

/-- Modelled from the spec: `SidebarState` of §3 — panel visibility, the
current selection, the per-group disclosure flags (indexed by the group's
position in the `items` sequence), and the `closeOnSelect` configuration. -/
structure SidebarState where
  isOpen : Bool
  selection : Selection
  expanded : ℕ → Bool
  closeOnSelect : Bool

/-- Modelled from the spec (§4.1 `selectItem`): set `selectedPath` to the
given path, unconditionally clearing any prior selection; when
`closeOnSelect` is true additionally set `isOpen := false` in the same
logical transition. -/
def selectItem (groupIndex : Option ℕ) (itemIndex : ℕ) (s : SidebarState) :
    SidebarState :=
  { s with
    selection := match groupIndex with
      | Option.some g => Selection.groupChild g itemIndex
      | Option.none => Selection.topItem itemIndex
    isOpen := if s.closeOnSelect then false else s.isOpen }

/-- Modelled from the spec (§4.1 `selectGroup`): mark the group itself (not
a child) as the selected entity, clearing any leaf selection; honours
`closeOnSelect` like `selectItem`. -/
def selectGroup (groupIndex : ℕ) (s : SidebarState) : SidebarState :=
  { s with
    selection := Selection.group groupIndex
    isOpen := if s.closeOnSelect then false else s.isOpen }

/-- Modelled from the spec (§6, §8): the logo-action click; with
`closeOnSelect` set it closes the panel in the same step. -/
def logoClick (s : SidebarState) : SidebarState :=
  { s with isOpen := if s.closeOnSelect then false else s.isOpen }

/-- Modelled from the spec (§4.2 `toggleDisclosure`): flip the `expanded`
flag of the group at the given index, touching nothing else. -/
def toggleDisclosure (g : ℕ) (s : SidebarState) : SidebarState :=
  { s with expanded := fun g2 => if g2 = g then !(s.expanded g2) else s.expanded g2 }

/-- The §3 `selectedPath` view of the current selection: the path of the
selected leaf item, when the selected entity is a leaf. -/
def selectedPath (s : SidebarState) : Option (Option ℕ × ℕ) :=
  match s.selection with
  | Selection.topItem i => Option.some (Option.none, i)
  | Selection.groupChild g i => Option.some (Option.some g, i)
  | _ => Option.none

/-- Rendering mark of the top-level item at index `i` (the
`ion-sidebar-item--selected` class in the tests). -/
def topItemMarked (s : SidebarState) (i : ℕ) : Bool :=
  match s.selection with
  | Selection.topItem j => j == i
  | _ => false

/-- Rendering mark of child `i` of the group at entry index `g`. -/
def childMarked (s : SidebarState) (g i : ℕ) : Bool :=
  match s.selection with
  | Selection.groupChild g2 i2 => g2 == g && i2 == i
  | _ => false

/-- Rendering mark of the group at entry index `g` (the
`sidebar-group--selected` class in the tests): a group is marked when it is
the selected entity itself or the selection lies on one of its children
(the spec's "active group"). -/
def groupMarked (s : SidebarState) (g : ℕ) : Bool :=
  match s.selection with
  | Selection.groupChild g2 _ => g2 == g
  | Selection.group g2 => g2 == g
  | _ => false

/-- Sum of a per-entry count over the `items` sequence, threading the entry
index. -/
def sumIdx (f : ℕ → SidebarEntry → ℕ) : ℕ → List SidebarEntry → ℕ
  | _, [] => 0
  | idx, e :: rest => f idx e + sumIdx f (idx + 1) rest

/-- How many leaf items of the entry at index `idx` are marked selected:
the item itself for a leaf entry, the marked children for a group entry. -/
def itemMarkCount (s : SidebarState) (idx : ℕ) : SidebarEntry → ℕ
  | SidebarEntry.item _ => cond (topItemMarked s idx) 1 0
  | SidebarEntry.group _ options =>
      (List.range options.length).countP (fun i => childMarked s idx i)

/-- Whether the entry at index `idx` is a group marked selected/active. -/
def groupMarkCount (s : SidebarState) (idx : ℕ) : SidebarEntry → ℕ
  | SidebarEntry.item _ => 0
  | SidebarEntry.group _ _ => cond (groupMarked s idx) 1 0

/-- Number of leaf items (top-level and group children) marked selected. -/
def countItemsMarked (entries : List SidebarEntry) (s : SidebarState) : ℕ :=
  sumIdx (itemMarkCount s) 0 entries

/-- Number of groups marked selected/active. -/
def countGroupsMarked (entries : List SidebarEntry) (s : SidebarState) : ℕ :=
  sumIdx (groupMarkCount s) 0 entries

/-- Total number of marked entities in the tree: top-level items, group
children and the groups themselves. -/
def countMarked (entries : List SidebarEntry) (s : SidebarState) : ℕ :=
  countItemsMarked entries s + countGroupsMarked entries s

/-- One call of a selection sequence: `selectItem` with its optional group
index, or `selectGroup`. -/
inductive SidebarCall where
  | selectI (groupIndex : Option ℕ) (itemIndex : ℕ)
  | selectG (groupIndex : ℕ)
deriving DecidableEq

/-- Interpretation of one call on the state. -/
def applyCall : SidebarCall → SidebarState → SidebarState
  | SidebarCall.selectI g i, s => selectItem g i s
  | SidebarCall.selectG g, s => selectGroup g s

/-- Interpretation of a call sequence, first call first. -/
def applyCalls (calls : List SidebarCall) (s : SidebarState) : SidebarState :=
  calls.foldl (fun s c => applyCall c s) s

/-- Whether the entry at index `g` is a group that declares an `action`. -/
def groupHasAction (entries : List SidebarEntry) (g : ℕ) : Bool :=
  match entries.get? g with
  | Option.some (SidebarEntry.group it _) => it.action.isSome
  | _ => false

/-- Modelled from the spec (§4.2): clicking the group's header/title.  When
the group declares an `action`, the click fires the action/selection; when
it declares none, the click toggles disclosure and invokes no action
callback.  The returned flag records whether an action callback was
invoked; the operation is total, so no error is ever raised. -/
def clickGroupTitle (entries : List SidebarEntry) (g : ℕ) (s : SidebarState) :
    SidebarState × Bool :=
  if groupHasAction entries g then (selectGroup g s, true)
  else (toggleDisclosure g s, false)

/-- Modelled from the spec (§4.2): the dedicated disclosure affordance
(the `sidebar-group__toggle-icon` of the tests) always toggles disclosure
and never invokes an action callback. -/
def clickGroupToggleIcon (g : ℕ) (s : SidebarState) : SidebarState × Bool :=
  (toggleDisclosure g s, false)

/-- Modelled from the spec (§6 configuration surface): the construction-time
options of the sidebar.  The `IonSidebarProps` declaration present among the
sources is an older revision carrying only `logo` and `items`; the current
one — referenced by the test file through `IonSidebarProps` with
`closeOnSelect` and `logoAction` — is missing from the sources, so those two
fields are taken from the spec: `closeOnSelect: bool (default false)` and
`logoAction: optional () -> void` (presence modelled as `Option Unit`). -/
structure IonSidebarProps where
  logo : String
  items : List SidebarEntry
  closeOnSelect : Bool := false
  logoAction : Option Unit := Option.none

/-- A one-group, one-child `items` sequence used for concrete evaluations. -/
def demoEntries : List SidebarEntry :=
  [SidebarEntry.group ⟨"Group 1", "star-solid", Option.none, Option.none, Option.none⟩
    [⟨"Item group 1", "box", Option.none, Option.none, Option.some ()⟩]]

/-- A two-entry sequence whose single group declares an `action`. -/
def demoEntriesWithAction : List SidebarEntry :=
  [SidebarEntry.item ⟨"Item 1", "user", Option.none, Option.none, Option.some ()⟩,
    SidebarEntry.group ⟨"Group 1", "star-solid", Option.none, Option.none, Option.some ()⟩
      [⟨"Item group 1", "box", Option.none, Option.none, Option.some ()⟩]]

/-- The component's initial state: closed, nothing selected, every group
collapsed, `closeOnSelect` off. -/
def initState : SidebarState :=
  { isOpen := false
    selection := Selection.none
    expanded := fun _ => false
    closeOnSelect := false }

/-- A state with the panel open and `closeOnSelect` configured on. -/
def closingState : SidebarState :=
  { initState with isOpen := true, closeOnSelect := true }

/-! ## Steps component -/

/-- The status of a step (the `Status` enum of the steps types). -/
inductive Status where
  | checked
  | selected
  | default
deriving DecidableEq

/-- A step (`StepType`): its assigned index and optional explicit status. -/
structure StepType where
  label : String := ""
  index : ℤ
  status : Option Status := Option.none
deriving DecidableEq

/-- Embedding of `IonStepsComponent.stepStatus`: checked before the current
index, selected at it, default after it. -/
def stepStatus (step : StepType) (currentIndex : ℤ) : Status :=
  if step.index < currentIndex then Status.checked
  else if step.index = currentIndex then Status.selected
  else Status.default

/-- Embedding of `IonStepsComponent.checkStartedStatus`: keep a step's
declared status when present, else derive it from the indices. -/
def checkStartedStatus (step : StepType) (currentIndex : ℤ) : Status :=
  match step.status with
  | Option.some st => st
  | Option.none => stepStatus step currentIndex

/-- The state of `IonStepsComponent` touched by `changeStep`. -/
structure IonStepsComponent where
  current : ℤ := 1
  steps : List StepType
  disabled : Bool := false
  firstCatchStatus : Bool := true
deriving DecidableEq

/-- Embedding of `IonStepsComponent.changeStep`: out-of-range indices
return immediately; otherwise every step's status is recomputed (through
`checkStartedStatus` on the first catch, `stepStatus` afterwards) and
`firstCatchStatus` is lowered. -/
def changeStep (currentIndex : ℤ) (c : IonStepsComponent) : IonStepsComponent :=
  if currentIndex < 1 ∨ currentIndex > (c.steps.length : ℤ) then c
  else
    { c with
      steps := c.steps.map fun step =>
        { step with
          status := Option.some
            (if c.firstCatchStatus then checkStartedStatus step currentIndex
             else stepStatus step currentIndex) }
      firstCatchStatus := false }

/-- A two-step component used for concrete evaluations. -/
def demoSteps : IonStepsComponent :=
  { steps := [{ index := 1 }, { index := 2 }] }

/-! ## Theorems -/

/-- Claim C1: for every input box and every `arrowAtCenter` flag,
`getPositionsPopover` returns, for each of the 10 placements, exactly the
anchor point given by the spec's placement table (all coordinates rounded
to the nearest integer, with `horizontalCenter = round((right-left)/2+left)`
and `verticalCenter = round((bottom-top)/2+top)`). -/
theorem C1_popover_matches_spec_table (box : Hostpositions)
    (arrowAtCenter : Bool) :
    getPositionsPopover box arrowAtCenter = specPlacementTable box arrowAtCenter := by
  cases box
  rfl

/-- Claim C8: on the box `{left: 0, right: 100, top: 0, bottom: 50}` with
`arrowAtCenter = true`, the calculator returns `topCenter = {left: 50, top: 0}`
and `leftTop = {left: 0, top: 25}`. -/
theorem C8_popover_concrete_box :
    (getPositionsPopover ⟨0, 100, 0, 50⟩ true).topCenter = ⟨50, 0⟩ ∧
      (getPositionsPopover ⟨0, 100, 0, 50⟩ true).leftTop = ⟨0, 25⟩ := by
  refine ⟨?_, ?_⟩ <;>
    · simp only [getPositionsPopover, Math.round, AnchorPoint.mk.injEq]
      norm_num

/-- Claim C9: `topCenter`, `bottomCenter`, `leftTop` and `rightTop` do not
depend on `arrowAtCenter`; and with `arrowAtCenter = true` the three top
placements coincide at `{horizontalCenter, round top}` and the three bottom
placements coincide at `{horizontalCenter, round bottom}`. -/
theorem C9_popover_arrow_independence_and_coincidence (box : Hostpositions) :
    ((getPositionsPopover box true).topCenter
        = (getPositionsPopover box false).topCenter ∧
      (getPositionsPopover box true).bottomCenter
        = (getPositionsPopover box false).bottomCenter ∧
      (getPositionsPopover box true).leftTop
        = (getPositionsPopover box false).leftTop ∧
      (getPositionsPopover box true).rightTop
        = (getPositionsPopover box false).rightTop) ∧
    ((getPositionsPopover box true).topLeft
        = ⟨Math.round ((box.right - box.left) / 2 + box.left), Math.round box.top⟩ ∧
      (getPositionsPopover box true).topCenter
        = ⟨Math.round ((box.right - box.left) / 2 + box.left), Math.round box.top⟩ ∧
      (getPositionsPopover box true).topRight
        = ⟨Math.round ((box.right - box.left) / 2 + box.left), Math.round box.top⟩ ∧
      (getPositionsPopover box true).bottomLeft
        = ⟨Math.round ((box.right - box.left) / 2 + box.left), Math.round box.bottom⟩ ∧
      (getPositionsPopover box true).bottomCenter
        = ⟨Math.round ((box.right - box.left) / 2 + box.left), Math.round box.bottom⟩ ∧
      (getPositionsPopover box true).bottomRight
        = ⟨Math.round ((box.right - box.left) / 2 + box.left), Math.round box.bottom⟩) := by
  cases box
  exact ⟨⟨rfl, rfl, rfl, rfl⟩, rfl, rfl, rfl, rfl, rfl, rfl⟩

/-- The count of hits of a fixed target among `range n` is one when the
target is in range and zero otherwise. -/
theorem countP_beq_range (n j : ℕ) :
    (List.range n).countP (fun i => j == i) = if j < n then 1 else 0 := by
  induction n with
  | zero => simp
  | succ n ih =>
    rw [List.range_succ, List.countP_append, ih, List.countP_singleton]
    by_cases h : j = n
    · subst h
      simp
    · have hb : (j == n) = false := by simp [h]
      rw [hb]
      by_cases hlt : j < n
      · have hlt1 : j < n + 1 := by omega
        simp [hlt, hlt1]
      · have hlt1 : ¬ j < n + 1 := by omega
        simp [hlt, hlt1]

/-- An indexed sum whose summand is one at most at index `t` and zero
elsewhere is bounded by one when started at or below `t`, by zero above. -/
theorem sumIdx_le_ite (f : ℕ → SidebarEntry → ℕ) (t : ℕ)
    (hf : ∀ idx e, f idx e ≤ if idx = t then 1 else 0) :
    ∀ (entries : List SidebarEntry) (idx : ℕ),
      sumIdx f idx entries ≤ if idx ≤ t then 1 else 0 := by
  intro entries
  induction entries with
  | nil =>
    intro idx
    simp only [sumIdx]
    exact Nat.zero_le _
  | cons e rest ih =>
    intro idx
    have h1 := hf idx e
    have h2 := ih (idx + 1)
    simp only [sumIdx]
    split at h1 <;> split at h2 <;> split <;> omega

/-- An indexed sum whose summand is one at most at one index is at most
one overall. -/
theorem sumIdx_le_one (f : ℕ → SidebarEntry → ℕ) (t : ℕ)
    (hf : ∀ idx e, f idx e ≤ if idx = t then 1 else 0)
    (entries : List SidebarEntry) : sumIdx f 0 entries ≤ 1 := by
  have h := sumIdx_le_ite f t hf entries 0
  split at h <;> omega

/-- In every state, at most one leaf item of the tree carries the selected
mark. -/
theorem countItemsMarked_le_one (entries : List SidebarEntry)
    (s : SidebarState) : countItemsMarked entries s ≤ 1 := by
  unfold countItemsMarked
  cases hsel : s.selection with
  | none =>
    refine sumIdx_le_one _ 0 (fun idx e => ?_) entries
    cases e with
    | item it =>
      simp only [itemMarkCount, topItemMarked, hsel]
      exact Nat.zero_le _
    | group it options =>
      have hpred : ∀ i, childMarked s idx i = false := by
        intro i
        simp [childMarked, hsel]
      simp only [itemMarkCount, hpred, List.countP_false, Function.const_apply]
      exact Nat.zero_le _
  | topItem j =>
    refine sumIdx_le_one _ j (fun idx e => ?_) entries
    cases e with
    | item it =>
      simp only [itemMarkCount, topItemMarked, hsel]
      by_cases h : j = idx
      · subst h
        simp
      · have hb : (j == idx) = false := by simp [h]
        rw [hb]
        exact Nat.zero_le _
    | group it options =>
      have hpred : ∀ i, childMarked s idx i = false := by
        intro i
        simp [childMarked, hsel]
      simp only [itemMarkCount, hpred, List.countP_false, Function.const_apply]
      exact Nat.zero_le _
  | groupChild g j =>
    refine sumIdx_le_one _ g (fun idx e => ?_) entries
    cases e with
    | item it =>
      simp only [itemMarkCount, topItemMarked, hsel]
      exact Nat.zero_le _
    | group it options =>
      by_cases h : idx = g
      · have hpred : ∀ i, childMarked s idx i = (j == i) := by
          intro i
          simp [childMarked, hsel, h]
        simp only [itemMarkCount, hpred, countP_beq_range, if_pos h]
        split <;> omega
      · have hpred : ∀ i, childMarked s idx i = false := by
          intro i
          have hb : (g == idx) = false := by
            simp only [beq_eq_false_iff_ne, ne_eq]
            exact fun hg => h hg.symm
          simp [childMarked, hsel, hb]
        simp only [itemMarkCount, hpred, List.countP_false, Function.const_apply]
        exact Nat.zero_le _
  | group g =>
    refine sumIdx_le_one _ 0 (fun idx e => ?_) entries
    cases e with
    | item it =>
      simp only [itemMarkCount, topItemMarked, hsel]
      exact Nat.zero_le _
    | group it options =>
      have hpred : ∀ i, childMarked s idx i = false := by
        intro i
        simp [childMarked, hsel]
      simp only [itemMarkCount, hpred, List.countP_false, Function.const_apply]
      exact Nat.zero_le _

/-- In every state, at most one group of the tree carries the
selected/active mark. -/
theorem countGroupsMarked_le_one (entries : List SidebarEntry)
    (s : SidebarState) : countGroupsMarked entries s ≤ 1 := by
  unfold countGroupsMarked
  cases hsel : s.selection with
  | none =>
    refine sumIdx_le_one _ 0 (fun idx e => ?_) entries
    cases e <;> simp only [groupMarkCount, groupMarked, hsel] <;> exact Nat.zero_le _
  | topItem j =>
    refine sumIdx_le_one _ 0 (fun idx e => ?_) entries
    cases e <;> simp only [groupMarkCount, groupMarked, hsel] <;> exact Nat.zero_le _
  | groupChild g j =>
    refine sumIdx_le_one _ g (fun idx e => ?_) entries
    cases e with
    | item it => exact Nat.zero_le _
    | group it options =>
      simp only [groupMarkCount, groupMarked, hsel]
      by_cases h : idx = g
      · simp [h]
      · have hb : (g == idx) = false := by
          simp only [beq_eq_false_iff_ne, ne_eq]
          exact fun hg => h hg.symm
        rw [hb]
        exact Nat.zero_le _
  | group g =>
    refine sumIdx_le_one _ g (fun idx e => ?_) entries
    cases e with
    | item it => exact Nat.zero_le _
    | group it options =>
      simp only [groupMarkCount, groupMarked, hsel]
      by_cases h : idx = g
      · simp [h]
      · have hb : (g == idx) = false := by
          simp only [beq_eq_false_iff_ne, ne_eq]
          exact fun hg => h hg.symm
        rw [hb]
        exact Nat.zero_le _

/-- Claim C2, counterexample: on a tree with one group holding one child,
selecting that child marks two entities at once — the child item and its
(now active) group — so "at most one entity in the entire tree (top-level
items, group children, and groups themselves) is marked selected" fails. -/
theorem C2_counterexample :
    ¬ (countMarked demoEntries
        (applyCalls [SidebarCall.selectI (Option.some 0) 0] initState) ≤ 1) := by
  decide

/-- Claim C2 (amended): after every sequence of `selectItem`/`selectGroup`
calls from any state, at most one leaf item (top-level or group child) is
marked selected and at most one group is marked selected/active; and a
further `selectItem` yields a selection independent of the previous one
(the prior selection is cleared first). -/
theorem C2_amended_single_selection (entries : List SidebarEntry)
    (calls : List SidebarCall) (s0 : SidebarState) :
    countItemsMarked entries (applyCalls calls s0) ≤ 1 ∧
      countGroupsMarked entries (applyCalls calls s0) ≤ 1 ∧
      ∀ (gi : Option ℕ) (i : ℕ),
        (selectItem gi i (applyCalls calls s0)).selection
          = (selectItem gi i s0).selection :=
  ⟨countItemsMarked_le_one entries _, countGroupsMarked_le_one entries _,
    fun gi i => by cases gi <;> rfl⟩

/-- Claim C3: with `closeOnSelect` configured on, every `selectItem`,
`selectGroup` and logo-action invocation sets `isOpen` to `false` in the
same logical transition, from every open prior state. -/
theorem C3_close_on_select (s : SidebarState) (gi : Option ℕ) (i g : ℕ)
    (hclose : s.closeOnSelect = true) (hopen : s.isOpen = true) :
    (selectItem gi i s).isOpen = false ∧ (selectGroup g s).isOpen = false ∧
      (logoClick s).isOpen = false := by
  refine ⟨?_, ?_, ?_⟩ <;> simp [selectItem, selectGroup, logoClick, hclose]

/-- Witness for C3 at a concrete open state with `closeOnSelect` on. -/
theorem C3_witness :
    closingState.closeOnSelect = true ∧ closingState.isOpen = true ∧
      ((selectItem (Option.some 0) 0 closingState).isOpen = false ∧
        (selectGroup 0 closingState).isOpen = false ∧
        (logoClick closingState).isOpen = false) :=
  ⟨rfl, rfl, C3_close_on_select closingState (Option.some 0) 0 0 rfl rfl⟩

/-- Claim C4: selecting a leaf inside group `g` marks exactly group `g`
active (every group `g2` is marked precisely when `g2 = g`), and selecting
a top-level item leaves every group unmarked. -/
theorem C4_active_group (s : SidebarState) (g i g2 : ℕ) :
    groupMarked (selectItem (Option.some g) i s) g2 = (g == g2) ∧
      groupMarked (selectItem (Option.some g) i s) g = true ∧
      groupMarked (selectItem Option.none i s) g2 = false :=
  ⟨rfl, by simp [groupMarked, selectItem], rfl⟩

/-- Claim C5: toggling a group's disclosure twice restores its `expanded`
flag (and the whole disclosure assignment), and a single toggle changes
neither the selection nor `selectedPath`. -/
theorem C5_disclosure_involutive (g : ℕ) (s : SidebarState) :
    (toggleDisclosure g (toggleDisclosure g s)).expanded = s.expanded ∧
      (toggleDisclosure g s).selection = s.selection ∧
      selectedPath (toggleDisclosure g s) = selectedPath s := by
  refine ⟨funext fun g2 => ?_, rfl, rfl⟩
  by_cases h : g2 = g <;> simp [toggleDisclosure, h]

/-- Claim C6: on a group without an `action`, a title click toggles the
group's disclosure, invokes no action callback and changes no selection
(and, being a total operation, raises no error); on a group with an
`action`, the title click performs the action-firing selection and leaves
disclosure untouched, which stays reachable through the dedicated toggle
affordance. -/
theorem C6_group_title_click (entries : List SidebarEntry) (g : ℕ)
    (s : SidebarState) :
    (groupHasAction entries g = false →
      (clickGroupTitle entries g s).2 = false ∧
        (clickGroupTitle entries g s).1.expanded g = !(s.expanded g) ∧
        (clickGroupTitle entries g s).1.selection = s.selection) ∧
    (groupHasAction entries g = true →
      (clickGroupTitle entries g s).1 = selectGroup g s ∧
        (clickGroupTitle entries g s).2 = true ∧
        (clickGroupTitle entries g s).1.expanded = s.expanded ∧
        (clickGroupToggleIcon g s).1.expanded g = !(s.expanded g)) := by
  constructor
  · intro h
    simp [clickGroupTitle, h, toggleDisclosure]
  · intro h
    simp [clickGroupTitle, h, selectGroup, clickGroupToggleIcon, toggleDisclosure]

/-- Witness for C6 on a concrete actionless group and a concrete group
with an action. -/
theorem C6_witness :
    ((clickGroupTitle demoEntries 0 initState).2 = false ∧
      (clickGroupTitle demoEntries 0 initState).1.expanded 0
        = !(initState.expanded 0) ∧
      (clickGroupTitle demoEntries 0 initState).1.selection
        = initState.selection) ∧
    ((clickGroupTitle demoEntriesWithAction 1 initState).1
        = selectGroup 1 initState ∧
      (clickGroupTitle demoEntriesWithAction 1 initState).2 = true ∧
      (clickGroupTitle demoEntriesWithAction 1 initState).1.expanded
        = initState.expanded ∧
      (clickGroupToggleIcon 1 initState).1.expanded 1
        = !(initState.expanded 1)) :=
  ⟨(C6_group_title_click demoEntries 0 initState).1 rfl,
    (C6_group_title_click demoEntriesWithAction 1 initState).2 rfl⟩

/-- Claim C7: the construction-time configuration surface accepts `logo`,
`items`, `closeOnSelect` and `logoAction`; a configuration built from only
a logo and an items sequence carries `closeOnSelect = false` and no
`logoAction` by default. -/
theorem C7_config_surface (l : String) (its : List SidebarEntry) :
    ({ logo := l, items := its } : IonSidebarProps).logo = l ∧
      ({ logo := l, items := its } : IonSidebarProps).items = its ∧
      ({ logo := l, items := its } : IonSidebarProps).closeOnSelect = false ∧
      ({ logo := l, items := its } : IonSidebarProps).logoAction = Option.none :=
  ⟨rfl, rfl, rfl, rfl⟩

/-- Claim C10: `changeStep` with an index below 1 or above the number of
steps returns immediately, leaving the whole component — in particular its
steps array and its `firstCatchStatus` flag — unchanged. -/
theorem C10_changeStep_out_of_range (c : IonStepsComponent) (i : ℤ)
    (h : i < 1 ∨ i > (c.steps.length : ℤ)) :
    changeStep i c = c ∧ (changeStep i c).steps = c.steps ∧
      (changeStep i c).firstCatchStatus = c.firstCatchStatus := by
  have he : changeStep i c = c := by
    unfold changeStep
    rw [if_pos h]
  exact ⟨he, by rw [he], by rw [he]⟩

/-- Witness for C10 at index 0 on a concrete two-step component. -/
theorem C10_witness :
    ((0 : ℤ) < 1 ∨ (0 : ℤ) > (demoSteps.steps.length : ℤ)) ∧
      changeStep 0 demoSteps = demoSteps :=
  ⟨Or.inl (by decide),
    (C10_changeStep_out_of_range demoSteps 0 (Or.inl (by decide))).1⟩
